import Mathlib

/-!
Shallow embedding of the timespec-arithmetic utility module
`lib/FreeRTOS-Plus-POSIX/source/FreeRTOS_POSIX_utils.c` (Amazon FreeRTOS+POSIX V1.0.2),
together with theorems settling the specification claims about it.

Modelling conventions:
* `struct timespec` becomes the structure `timespec` with mathematical-integer
  fields (`time_t` / `long` are implementation-width signed types; C signed
  overflow is undefined behaviour, so the defined executions coincide with the
  unbounded-integer model).
* A possibly-NULL pointer argument becomes an `Option`; an output pointer is
  modelled by passing the current contents of the pointed-to cell in and
  returning the contents after the call, so that "left unmodified" is the
  statement that the returned cell equals the one passed in.
* C `/` and `%` on signed integers truncate toward zero, so they are embedded
  as `Int.tdiv` / `Int.tmod` (Lean's `/` on `Int` rounds toward negative
  infinity and is NOT the C operator).
* The `uint64_t` intermediate arithmetic of `UTILS_TimespecToTicks` is embedded
  exactly, as `Nat` arithmetic reduced `% 2 ^ 64`, and the final cast to
  `TickType_t` as reduction `% 2 ^ TW` where `TW` is the configured bit width
  of `TickType_t`.
* `configTICK_RATE_HZ` (`HZ`), `NANOSECONDS_PER_TICK` (`NPT`) and the
  `TickType_t` width (`TW`) are build-configuration constants defined outside
  the analysed file; they are passed as explicit parameters.
-/

/-- Embedding of C `struct timespec`: a seconds / nanoseconds pair of signed
integers (`time_t tv_sec; long tv_nsec;`). -/
structure timespec where
  tv_sec : Int
  tv_nsec : Int
deriving DecidableEq, Repr

/-- Modelled from the spec: the header constant `NANOSECONDS_PER_SECOND`
(1e9), defined in `FreeRTOS_POSIX/utils.h`, which is not part of the analysed
sources. -/
def NANOSECONDS_PER_SECOND : Int := 1000000000

/-- Modelled from the spec: the POSIX error code `EINVAL` ("invalid
argument"), defined in `FreeRTOS_POSIX/errno.h`, which is not part of the
analysed sources.  The exact numeric value is irrelevant to the claims; it is
a fixed positive code distinct from `0`, `1`, `-1` and `ETIMEDOUT`. -/
def EINVAL : Int := 22

/-- Modelled from the spec: the POSIX error code `ETIMEDOUT`, defined in
`FreeRTOS_POSIX/errno.h`, which is not part of the analysed sources.  A fixed
positive code distinct from `0`, `1`, `-1` and `EINVAL`. -/
def ETIMEDOUT : Int := 116

/-- Embedding of `UTILS_ValidateTimespec` (FreeRTOS_POSIX_utils.c:304-319).
Returns `true` iff the pointer is non-NULL and `0 <= tv_nsec <
NANOSECONDS_PER_SECOND`; `tv_sec` is not examined. -/
def UTILS_ValidateTimespec (pxTimespec : Option timespec) : Bool :=
  match pxTimespec with
  | none => false
  | some ts => decide (0 ≤ ts.tv_nsec) && decide (ts.tv_nsec < NANOSECONDS_PER_SECOND)

/-- Embedding of `UTILS_TimespecCompare` (FreeRTOS_POSIX_utils.c:259-300).
NULL-safe three-way lexicographic comparison: both NULL gives 0, only `y`
NULL gives 1, only `x` NULL gives -1; otherwise seconds are compared first
and nanoseconds second. -/
def UTILS_TimespecCompare (x y : Option timespec) : Int :=
  match x, y with
  | none, none => 0
  | some _, none => 1
  | none, some _ => -1
  | some a, some b =>
    if a.tv_sec > b.tv_sec then 1
    else if a.tv_sec < b.tv_sec then -1
    else if a.tv_nsec > b.tv_nsec then 1
    else if a.tv_nsec < b.tv_nsec then -1
    else 0

/-- Embedding of `UTILS_TimespecSubtract` (FreeRTOS_POSIX_utils.c:208-255).
Any NULL pointer gives status -1 with the output cell untouched.  Otherwise
the result is dispatched on `UTILS_TimespecCompare x y`: -1 gives status 1
with the output cell untouched; 0 writes a zero timespec with status 0;
1 performs the componentwise subtraction with a single borrow, writes it,
and returns -1 if the nanoseconds field is still negative after the borrow
(the C code has already stored into `pxResult` at that point), else 0. -/
def UTILS_TimespecSubtract (x y pxResult : Option timespec) : Int × Option timespec :=
  match x, y, pxResult with
  | some a, some b, some r0 =>
    if UTILS_TimespecCompare (some a) (some b) = -1 then
      (1, some r0)
    else if UTILS_TimespecCompare (some a) (some b) = 0 then
      (0, some { tv_sec := 0, tv_nsec := 0 })
    else
      if a.tv_nsec - b.tv_nsec < 0 then
        ((if a.tv_nsec - b.tv_nsec + NANOSECONDS_PER_SECOND < 0 then -1 else 0),
         some { tv_sec := a.tv_sec - b.tv_sec - 1,
                tv_nsec := a.tv_nsec - b.tv_nsec + NANOSECONDS_PER_SECOND })
      else
        (0, some { tv_sec := a.tv_sec - b.tv_sec, tv_nsec := a.tv_nsec - b.tv_nsec })
  | _, _, _ => (-1, pxResult)

/-- Embedding of `UTILS_NanosecondsToTimespec` (FreeRTOS_POSIX_utils.c:141-159).
`llSource / NANOSECONDS_PER_SECOND` and `llSource % NANOSECONDS_PER_SECOND`
are C truncating division/remainder, hence `Int.tdiv` / `Int.tmod`; when the
remainder is negative the carry `lCarrySec = tv_nsec / 1e9 + 1` is subtracted
from `tv_sec` and `lCarrySec * 1e9` added to `tv_nsec`.  The function writes
unconditionally (the C code never fails here); it is embedded as a pure
function returning the written timespec. -/
def UTILS_NanosecondsToTimespec (llSource : Int) : timespec :=
  if Int.tmod llSource NANOSECONDS_PER_SECOND < 0 then
    { tv_sec := Int.tdiv llSource NANOSECONDS_PER_SECOND -
        (Int.tdiv (Int.tmod llSource NANOSECONDS_PER_SECOND) NANOSECONDS_PER_SECOND + 1),
      tv_nsec := Int.tmod llSource NANOSECONDS_PER_SECOND +
        (Int.tdiv (Int.tmod llSource NANOSECONDS_PER_SECOND) NANOSECONDS_PER_SECOND + 1) *
          NANOSECONDS_PER_SECOND }
  else
    { tv_sec := Int.tdiv llSource NANOSECONDS_PER_SECOND,
      tv_nsec := Int.tmod llSource NANOSECONDS_PER_SECOND }

/-- Embedding of `UTILS_TimespecAdd` (FreeRTOS_POSIX_utils.c:163-183).
Any NULL pointer gives -1 with the output cell untouched; otherwise the two
total-nanosecond values are added in the signed 64-bit domain, the sum is
renormalized through `UTILS_NanosecondsToTimespec` into the output cell, and
the status is `(int)(sum < 0)`. -/
def UTILS_TimespecAdd (x y pxResult : Option timespec) : Int × Option timespec :=
  match x, y, pxResult with
  | some a, some b, some _ =>
    ((if (a.tv_sec * NANOSECONDS_PER_SECOND + a.tv_nsec) +
          (b.tv_sec * NANOSECONDS_PER_SECOND + b.tv_nsec) < 0 then 1 else 0),
     some (UTILS_NanosecondsToTimespec
       ((a.tv_sec * NANOSECONDS_PER_SECOND + a.tv_nsec) +
        (b.tv_sec * NANOSECONDS_PER_SECOND + b.tv_nsec))))
  | _, _, _ => (-1, pxResult)

/-- Embedding of `UTILS_TimespecToTicks` (FreeRTOS_POSIX_utils.c:101-137),
parametric in the build configuration: `HZ` is `configTICK_RATE_HZ`, `NPT`
is `NANOSECONDS_PER_TICK`, `TW` is the bit width of `TickType_t`.  A NULL
pointer or a timespec failing `UTILS_ValidateTimespec` gives `EINVAL` with
the output cell untouched.  Otherwise
`ullTotalTicks = (uint64_t)HZ * (uint64_t)tv_sec` (both casts and the
product reduce `% 2 ^ 64`),
`lNanoseconds = tv_nsec / NPT + (tv_nsec % NPT != 0)` (truncating division),
their sum is taken `% 2 ^ 64` and the store through the `TickType_t`
pointer truncates `% 2 ^ TW`; status 0. -/
def UTILS_TimespecToTicks (HZ NPT TW : Nat) (pxTimespec : Option timespec)
    (pxResult : Option Nat) : Int × Option Nat :=
  match pxTimespec, pxResult with
  | some ts, some _ =>
    if UTILS_ValidateTimespec (some ts) = false then
      (EINVAL, pxResult)
    else
      (0, some ((((HZ % 2 ^ 64) * (Int.toNat (ts.tv_sec % (2 ^ 64 : Int))) % 2 ^ 64 +
        Int.toNat ((Int.tdiv ts.tv_nsec (NPT : Int) +
          (if Int.tmod ts.tv_nsec (NPT : Int) ≠ 0 then 1 else 0)) % (2 ^ 64 : Int)))
        % 2 ^ 64) % 2 ^ TW))
  | _, _ => (EINVAL, pxResult)

/-- Embedding of `UTILS_AbsoluteTimespecToDeltaTicks`
(FreeRTOS_POSIX_utils.c:61-97).  Any NULL pointer gives `EINVAL` with the
output cell untouched.  Otherwise `UTILS_TimespecSubtract` computes the
difference into the local `xDifference` (initialised to `{0}` and always
non-NULL); its status 1 becomes `ETIMEDOUT`, its status -1 becomes `EINVAL`,
and on status 0 the difference is converted by `UTILS_TimespecToTicks`, whose
status and write-through are returned unchanged. -/
def UTILS_AbsoluteTimespecToDeltaTicks (HZ NPT TW : Nat)
    (pxAbsoluteTime pxCurrentTime : Option timespec) (pxResult : Option Nat) :
    Int × Option Nat :=
  match pxAbsoluteTime, pxCurrentTime, pxResult with
  | some a, some c, some r0 =>
    if (UTILS_TimespecSubtract (some a) (some c) (some { tv_sec := 0, tv_nsec := 0 })).1 = 1 then
      (ETIMEDOUT, some r0)
    else if (UTILS_TimespecSubtract (some a) (some c) (some { tv_sec := 0, tv_nsec := 0 })).1 = -1 then
      (EINVAL, some r0)
    else
      UTILS_TimespecToTicks HZ NPT TW
        (UTILS_TimespecSubtract (some a) (some c) (some { tv_sec := 0, tv_nsec := 0 })).2
        (some r0)
  | _, _, _ => (EINVAL, pxResult)

/-- Spec-side abbreviation: the total nanosecond value `seconds * 1e9 +
nanoseconds` of a timespec. -/
def totalNanoseconds (ts : timespec) : Int :=
  ts.tv_sec * NANOSECONDS_PER_SECOND + ts.tv_nsec

/-- Two timespecs with equal fields are equal. -/
theorem timespec_eq_of_fields {a b : timespec} (h1 : a.tv_sec = b.tv_sec)
    (h2 : a.tv_nsec = b.tv_nsec) : a = b := by
  cases a; cases b; simp_all

/-- Truncating division of a value strictly between `-b` and `b` is zero. -/
theorem tdiv_eq_zero_of_abs_lt {a b : Int} (h1 : -b < a) (h2 : a < b) :
    Int.tdiv a b = 0 := by
  rcases le_or_lt 0 a with h | h
  · exact Int.tdiv_eq_zero_of_lt h h2
  · have h0 : Int.tdiv (-a) b = 0 := Int.tdiv_eq_zero_of_lt (by omega) (by omega)
    have h3 := Int.neg_tdiv a b
    omega

/-- Truncating division of a nonpositive value in terms of Euclidean division. -/
theorem tdiv_nonpos_eq {n b : Int} (hn : n ≤ 0) (hb : 0 ≤ b) :
    Int.tdiv n b = -((-n) / b) := by
  have h1 := Int.neg_tdiv (-n) b
  rw [neg_neg] at h1
  rw [h1, Int.tdiv_eq_ediv (by omega) hb]

/-- The written timespec of `UTILS_NanosecondsToTimespec` is normalized and is
an exact decomposition of the input nanosecond count. -/
theorem nanosecondsToTimespec_char (n : Int) :
    0 ≤ (UTILS_NanosecondsToTimespec n).tv_nsec ∧
      (UTILS_NanosecondsToTimespec n).tv_nsec < NANOSECONDS_PER_SECOND ∧
      (UTILS_NanosecondsToTimespec n).tv_sec * NANOSECONDS_PER_SECOND +
        (UTILS_NanosecondsToTimespec n).tv_nsec = n := by
  have hqr := Int.tdiv_add_tmod n NANOSECONDS_PER_SECOND
  unfold UTILS_NanosecondsToTimespec NANOSECONDS_PER_SECOND at *
  rcases le_or_lt 0 n with hn | hn
  · have hr0 : 0 ≤ Int.tmod n 1000000000 := Int.tmod_nonneg _ hn
    have hr1 : Int.tmod n 1000000000 < 1000000000 := Int.tmod_lt_of_pos n (by norm_num)
    rw [if_neg (by omega)]
    dsimp only
    refine ⟨hr0, hr1, by omega⟩
  · have htd : Int.tdiv n 1000000000 = -((-n) / 1000000000) :=
      tdiv_nonpos_eq (by omega) (by norm_num)
    have htm : Int.tmod n 1000000000 = n + ((-n) / 1000000000) * 1000000000 := by
      rw [htd] at hqr; omega
    by_cases hneg : Int.tmod n 1000000000 < 0
    · rw [if_pos hneg]
      have hz : Int.tdiv (Int.tmod n 1000000000) 1000000000 = 0 :=
        tdiv_eq_zero_of_abs_lt (by omega) (by omega)
      rw [hz, htd, htm]
      dsimp only
      refine ⟨by omega, by omega, by ring_nf⟩
    · rw [if_neg hneg]
      dsimp only
      refine ⟨by omega, by omega, by omega⟩

/-- Rounding-up division on naturals: quotient plus an any-remainder indicator
equals `(a + npt - 1) / npt`, the ceiling of `a / npt`. -/
theorem nat_ceil_div (a npt : Nat) (h1 : 1 ≤ npt) :
    a / npt + (if a % npt ≠ 0 then 1 else 0) = (a + npt - 1) / npt := by
  have hd := Nat.div_add_mod a npt
  have hm : a % npt < npt := Nat.mod_lt a (by omega)
  by_cases h : a % npt = 0
  · simp only [h, ne_eq, not_true_eq_false, if_false]
    have h2 : a + npt - 1 = npt * (a / npt) + (npt - 1) := by omega
    rw [h2, Nat.mul_add_div (by omega)]
    have h3 : (npt - 1) / npt = 0 := Nat.div_eq_of_lt (by omega)
    omega
  · simp only [h, ne_eq, not_false_eq_true, if_true]
    have hx : npt * (a / npt + 1) = npt * (a / npt) + npt := by ring
    have h2 : a + npt - 1 = npt * (a / npt + 1) + (a % npt - 1) := by rw [hx]; omega
    rw [h2, Nat.mul_add_div (by omega)]
    have h3 : (a % npt - 1) / npt = 0 := Nat.div_eq_of_lt (by omega)
    omega

/-- The `lNanoseconds` term of `UTILS_TimespecToTicks` — truncating quotient
plus round-up indicator — equals the natural-number ceiling
`(tv_nsec + NPT - 1) / NPT` whenever `tv_nsec` is nonnegative. -/
theorem lNanoseconds_eq (v : Int) (npt : Nat) (hv : 0 ≤ v) (h1 : 1 ≤ npt) :
    Int.tdiv v (npt : Int) + (if Int.tmod v (npt : Int) ≠ 0 then 1 else 0) =
      ((v.toNat + npt - 1) / npt : Nat) := by
  obtain ⟨a, rfl⟩ : ∃ a : Nat, v = (a : Int) := ⟨v.toNat, (Int.toNat_of_nonneg hv).symm⟩
  rw [← Int.ofNat_tdiv, ← Int.ofNat_tmod, Int.toNat_natCast, ← nat_ceil_div a npt h1]
  by_cases h : a % npt = 0
  · simp [h]
  · have hne : ¬ ((npt : Int) ∣ (a : Int)) := by
      rw [Int.natCast_dvd_natCast, Nat.dvd_iff_mod_eq_zero]
      exact h
    simp [h, hne]

example : UTILS_NanosecondsToTimespec (-1) = { tv_sec := -1, tv_nsec := 999999999 } := by decide
example : UTILS_TimespecSubtract (some ⟨5, 0⟩) (some ⟨3, 500000000⟩) (some ⟨9, 9⟩) =
    (0, some ⟨1, 500000000⟩) := by decide
example : (UTILS_AbsoluteTimespecToDeltaTicks 1000 1000000 32 (some ⟨5, 0⟩) (some ⟨10, 0⟩)
    (some 7)).1 = ETIMEDOUT := by decide
example : UTILS_TimespecToTicks 1000 1000000 32 (some ⟨1, 0⟩) (some 7) = (0, some 1000) := by
  decide
example : UTILS_TimespecToTicks 1000 1000000 32 (some ⟨0, 1⟩) (some 7) = (0, some 1) := by
  decide

/-- C1: for every non-null normalized timespec with nonnegative seconds (and
a configuration in the supported range, where the exact tick count fits the
`TickType_t` width `TW ≤ 64`), `UTILS_TimespecToTicks` returns 0 and writes
exactly `tv_sec * configTICK_RATE_HZ + ceil(tv_nsec / NANOSECONDS_PER_TICK)`
ticks, the nanosecond term rounding up on any nonzero remainder; in
particular `{seconds := 0, nanoseconds := 1}` yields exactly 1 tick whenever
`NANOSECONDS_PER_TICK > 1`. -/
theorem C1_timespecToTicks_exact_ceiling :
    (∀ (HZ NPT TW : Nat) (ts : timespec) (r0 : Nat),
      0 ≤ ts.tv_nsec → ts.tv_nsec < NANOSECONDS_PER_SECOND → 0 ≤ ts.tv_sec →
      1 ≤ HZ → 1 ≤ NPT → TW ≤ 64 →
      ts.tv_sec.toNat * HZ + (ts.tv_nsec.toNat + NPT - 1) / NPT < 2 ^ TW →
      UTILS_TimespecToTicks HZ NPT TW (some ts) (some r0) =
        (0, some (ts.tv_sec.toNat * HZ + (ts.tv_nsec.toNat + NPT - 1) / NPT))) ∧
    (∀ (HZ NPT TW : Nat) (r0 : Nat), 1 ≤ HZ → 1 < NPT → 1 ≤ TW → TW ≤ 64 →
      UTILS_TimespecToTicks HZ NPT TW (some { tv_sec := 0, tv_nsec := 1 }) (some r0) =
        (0, some 1)) := by
  have main : ∀ (HZ NPT TW : Nat) (ts : timespec) (r0 : Nat),
      0 ≤ ts.tv_nsec → ts.tv_nsec < NANOSECONDS_PER_SECOND → 0 ≤ ts.tv_sec →
      1 ≤ HZ → 1 ≤ NPT → TW ≤ 64 →
      ts.tv_sec.toNat * HZ + (ts.tv_nsec.toNat + NPT - 1) / NPT < 2 ^ TW →
      UTILS_TimespecToTicks HZ NPT TW (some ts) (some r0) =
        (0, some (ts.tv_sec.toNat * HZ + (ts.tv_nsec.toNat + NPT - 1) / NPT)) := by
    intro HZ NPT TW ts r0 h1 h2 h3 hHZ hNPT hTW hbound
    have hval : UTILS_ValidateTimespec (some ts) = true := by
      simp only [UTILS_ValidateTimespec, Bool.and_eq_true, decide_eq_true_eq]
      exact ⟨h1, h2⟩
    simp only [UTILS_TimespecToTicks, hval]
    rw [if_neg (by simp)]
    have hT64 : (2 : Nat) ^ TW ≤ 2 ^ 64 := Nat.pow_le_pow_right (by norm_num) hTW
    have hexact64 : ts.tv_sec.toNat * HZ + (ts.tv_nsec.toNat + NPT - 1) / NPT < 2 ^ 64 := by
      omega
    rw [lNanoseconds_eq ts.tv_nsec NPT h1 hNPT]
    have hcN64 : ((ts.tv_nsec.toNat + NPT - 1) / NPT : Nat) < 2 ^ 64 := by omega
    have hmodc : ((((ts.tv_nsec.toNat + NPT - 1) / NPT : Nat) : Int) % (2 ^ 64 : Int)).toNat =
        ((ts.tv_nsec.toNat + NPT - 1) / NPT : Nat) := by
      rw [Int.emod_eq_of_lt (by positivity) (by exact_mod_cast hcN64), Int.toNat_natCast]
    have hSle : ts.tv_sec.toNat ≤ ts.tv_sec.toNat * HZ := Nat.le_mul_of_pos_right _ (by omega)
    have hS64 : ts.tv_sec.toNat < 2 ^ 64 := by omega
    have hmodS : (ts.tv_sec % (2 ^ 64 : Int)).toNat = ts.tv_sec.toNat := by
      rw [Int.emod_eq_of_lt h3 (by omega)]
    rw [hmodc, hmodS]
    simp only [Prod.mk.injEq, Option.some.injEq]
    refine ⟨trivial, ?_⟩
    rcases Nat.eq_zero_or_pos ts.tv_sec.toNat with hS0 | hSpos
    · rw [hS0]
      simp only [Nat.mul_zero, Nat.zero_add, Nat.zero_mul]
      rw [Nat.mod_eq_of_lt (by omega), Nat.mod_eq_of_lt (by omega),
        Nat.mod_eq_of_lt (by omega)]
      omega
    · have hHZle : HZ ≤ ts.tv_sec.toNat * HZ := Nat.le_mul_of_pos_left HZ hSpos
      rw [Nat.mod_eq_of_lt (show HZ < 2 ^ 64 by omega), Nat.mul_comm HZ ts.tv_sec.toNat,
        Nat.mod_eq_of_lt (show ts.tv_sec.toNat * HZ < 2 ^ 64 by omega),
        Nat.mod_eq_of_lt (by omega), Nat.mod_eq_of_lt (by omega)]
  refine ⟨main, ?_⟩
  intro HZ NPT TW r0 hHZ hNPT hTW1 hTW2
  have hadd : (1 + NPT - 1 : Nat) = NPT := by omega
  have hdiv : (NPT : Nat) / NPT = 1 := Nat.div_self (by omega)
  have h2TW : (1 : Nat) < 2 ^ TW := by
    have h3 : (2 : Nat) ^ 1 ≤ 2 ^ TW := Nat.pow_le_pow_right (by norm_num) hTW1
    omega
  have hlt : ({ tv_sec := 0, tv_nsec := 1 } : timespec).tv_sec.toNat * HZ +
      (({ tv_sec := 0, tv_nsec := 1 } : timespec).tv_nsec.toNat + NPT - 1) / NPT < 2 ^ TW := by
    dsimp only
    simp only [Int.toNat_zero, Int.toNat_one, Nat.zero_mul, hadd, hdiv]
    omega
  have h := main HZ NPT TW { tv_sec := 0, tv_nsec := 1 } r0 (by norm_num)
    (by norm_num [NANOSECONDS_PER_SECOND]) (by norm_num) hHZ (by omega) hTW2 hlt
  rw [h]
  dsimp only
  simp only [Int.toNat_zero, Int.toNat_one, Nat.zero_mul, hadd, hdiv]

/-- Witness for C1: a concrete instantiation (`HZ = 1000`, `NPT = 1000000`,
32-bit ticks, `ts = {2 s, 3000001 ns}`) where the hypotheses hold and the
theorem evaluates the embedded code to `2 * 1000 + 4 = 2004` ticks. -/
theorem C1_witness :
    UTILS_TimespecToTicks 1000 1000000 32 (some { tv_sec := 2, tv_nsec := 3000001 })
      (some 0) = (0, some 2004) := by
  have h := C1_timespecToTicks_exact_ceiling.1 1000 1000000 32
    { tv_sec := 2, tv_nsec := 3000001 } 0 (by decide) (by decide) (by decide)
    (by decide) (by decide) (by decide) (by decide)
  simpa using h

/-- C9: `UTILS_TimespecCompare` is a NULL-safe lexicographic three-way
comparison — both NULL gives 0, only `y` NULL gives 1, only `x` NULL gives
-1, otherwise seconds are compared first and nanoseconds second — and it
satisfies antisymmetry `Compare(x,y) = -Compare(y,x)` and reflexivity
`Compare(x,x) = 0` for all inputs, NULL and non-normalized included. -/
theorem C9_timespecCompare_char :
    UTILS_TimespecCompare none none = 0 ∧
    (∀ ts : timespec, UTILS_TimespecCompare (some ts) none = 1) ∧
    (∀ ts : timespec, UTILS_TimespecCompare none (some ts) = -1) ∧
    (∀ a b : timespec, a.tv_sec > b.tv_sec → UTILS_TimespecCompare (some a) (some b) = 1) ∧
    (∀ a b : timespec, a.tv_sec < b.tv_sec → UTILS_TimespecCompare (some a) (some b) = -1) ∧
    (∀ a b : timespec, a.tv_sec = b.tv_sec → a.tv_nsec > b.tv_nsec →
      UTILS_TimespecCompare (some a) (some b) = 1) ∧
    (∀ a b : timespec, a.tv_sec = b.tv_sec → a.tv_nsec < b.tv_nsec →
      UTILS_TimespecCompare (some a) (some b) = -1) ∧
    (∀ a b : timespec, a.tv_sec = b.tv_sec → a.tv_nsec = b.tv_nsec →
      UTILS_TimespecCompare (some a) (some b) = 0) ∧
    (∀ x y : Option timespec, UTILS_TimespecCompare x y = -UTILS_TimespecCompare y x) ∧
    (∀ x : Option timespec, UTILS_TimespecCompare x x = 0) := by
  refine ⟨rfl, fun ts => rfl, fun ts => rfl, ?_, ?_, ?_, ?_, ?_, ?_, ?_⟩
  · intro a b h
    simp only [UTILS_TimespecCompare]
    split_ifs <;> omega
  · intro a b h
    simp only [UTILS_TimespecCompare]
    split_ifs <;> omega
  · intro a b h1 h2
    simp only [UTILS_TimespecCompare]
    split_ifs <;> omega
  · intro a b h1 h2
    simp only [UTILS_TimespecCompare]
    split_ifs <;> omega
  · intro a b h1 h2
    simp only [UTILS_TimespecCompare]
    split_ifs <;> omega
  · intro x y
    rcases x with _ | a <;> rcases y with _ | b <;> simp only [UTILS_TimespecCompare] <;>
      try norm_num
    split_ifs <;> omega
  · intro x
    rcases x with _ | a
    · rfl
    · simp only [UTILS_TimespecCompare]
      split_ifs <;> omega

/-- Witness for C9: the seconds-dominant and nanosecond-tiebreak branches of
the comparison evaluated on concrete timespecs. -/
theorem C9_witness :
    UTILS_TimespecCompare (some { tv_sec := 5, tv_nsec := 0 })
        (some { tv_sec := 3, tv_nsec := 0 }) = 1 ∧
    UTILS_TimespecCompare (some { tv_sec := 3, tv_nsec := 1 })
        (some { tv_sec := 3, tv_nsec := 2 }) = -1 :=
  ⟨C9_timespecCompare_char.2.2.2.1 { tv_sec := 5, tv_nsec := 0 }
      { tv_sec := 3, tv_nsec := 0 } (by decide),
   C9_timespecCompare_char.2.2.2.2.2.2.1 { tv_sec := 3, tv_nsec := 1 }
      { tv_sec := 3, tv_nsec := 2 } (by decide) (by decide)⟩

/-- C7: `UTILS_ValidateTimespec` returns true iff the pointer is non-NULL and
`0 <= tv_nsec < 1e9`; the seconds field is never examined, NULL yields
false, and `tv_nsec` equal to exactly 1e9 yields false. -/
theorem C7_validateTimespec_char :
    UTILS_ValidateTimespec none = false ∧
    (∀ ts : timespec, UTILS_ValidateTimespec (some ts) = true ↔
      0 ≤ ts.tv_nsec ∧ ts.tv_nsec < 1000000000) ∧
    (∀ (ts : timespec) (s : Int),
      UTILS_ValidateTimespec (some { tv_sec := s, tv_nsec := ts.tv_nsec }) =
        UTILS_ValidateTimespec (some ts)) ∧
    (∀ s : Int, UTILS_ValidateTimespec (some { tv_sec := s, tv_nsec := 1000000000 }) = false) := by
  refine ⟨rfl, ?_, ?_, ?_⟩
  · intro ts
    simp [UTILS_ValidateTimespec, NANOSECONDS_PER_SECOND]
  · intro ts s
    simp [UTILS_ValidateTimespec]
  · intro s
    simp [UTILS_ValidateTimespec, NANOSECONDS_PER_SECOND]

/-- Witness for C7: the characterization evaluated on the boundary input
`{0, 1000000000}` (rejected) and on `{0, 5}` (accepted). -/
theorem C7_witness :
    UTILS_ValidateTimespec (some { tv_sec := 0, tv_nsec := 1000000000 }) = false ∧
    UTILS_ValidateTimespec (some { tv_sec := 0, tv_nsec := 5 }) = true :=
  ⟨C7_validateTimespec_char.2.2.2 0,
   (C7_validateTimespec_char.2.1 { tv_sec := 0, tv_nsec := 5 }).mpr ⟨by decide, by decide⟩⟩

/-- C3: `UTILS_TimespecSubtract` returns 1 leaving the output cell untouched
when `Compare(x,y) = -1`; writes a zero timespec with status 0 when
`Compare(x,y) = 0`; and when `Compare(x,y) = 1` with both operands
normalized writes the componentwise difference with at most one borrow of a
second, status 0 — in particular `{5,0} - {3,500000000} = {1,500000000}`. -/
theorem C3_timespecSubtract_cases :
    (∀ x y r0 : timespec, UTILS_TimespecCompare (some x) (some y) = -1 →
      UTILS_TimespecSubtract (some x) (some y) (some r0) = (1, some r0)) ∧
    (∀ x y r0 : timespec, UTILS_TimespecCompare (some x) (some y) = 0 →
      UTILS_TimespecSubtract (some x) (some y) (some r0) =
        (0, some { tv_sec := 0, tv_nsec := 0 })) ∧
    (∀ x y r0 : timespec, UTILS_TimespecCompare (some x) (some y) = 1 →
      0 ≤ x.tv_nsec → x.tv_nsec < NANOSECONDS_PER_SECOND →
      0 ≤ y.tv_nsec → y.tv_nsec < NANOSECONDS_PER_SECOND →
      UTILS_TimespecSubtract (some x) (some y) (some r0) =
        (0, some (if y.tv_nsec ≤ x.tv_nsec then
            { tv_sec := x.tv_sec - y.tv_sec, tv_nsec := x.tv_nsec - y.tv_nsec }
          else
            { tv_sec := x.tv_sec - y.tv_sec - 1,
              tv_nsec := x.tv_nsec - y.tv_nsec + NANOSECONDS_PER_SECOND }))) ∧
    (∀ r0 : timespec,
      UTILS_TimespecSubtract (some { tv_sec := 5, tv_nsec := 0 })
          (some { tv_sec := 3, tv_nsec := 500000000 }) (some r0) =
        (0, some { tv_sec := 1, tv_nsec := 500000000 })) := by
  refine ⟨?_, ?_, ?_, ?_⟩
  · intro x y r0 h
    simp only [UTILS_TimespecSubtract]
    rw [if_pos h]
  · intro x y r0 h
    simp only [UTILS_TimespecSubtract, h]
    norm_num
  · intro x y r0 h hx0 hx1 hy0 hy1
    simp only [NANOSECONDS_PER_SECOND] at hx1 hy1
    simp only [UTILS_TimespecSubtract, h, NANOSECONDS_PER_SECOND]
    norm_num
    by_cases hn : y.tv_nsec ≤ x.tv_nsec
    · rw [if_neg (by omega), if_pos hn]
    · rw [if_pos (by omega), if_neg (by omega), if_neg hn]
  · intro r0
    simp only [UTILS_TimespecSubtract, UTILS_TimespecCompare, NANOSECONDS_PER_SECOND]
    norm_num

/-- Witness for C3: the three compare-dispatched branches evaluated on
concrete inputs. -/
theorem C3_witness :
    UTILS_TimespecSubtract (some { tv_sec := 1, tv_nsec := 0 })
        (some { tv_sec := 2, tv_nsec := 0 }) (some { tv_sec := 7, tv_nsec := 8 }) =
      (1, some { tv_sec := 7, tv_nsec := 8 }) ∧
    UTILS_TimespecSubtract (some { tv_sec := 5, tv_nsec := 0 })
        (some { tv_sec := 3, tv_nsec := 500000000 }) (some { tv_sec := 7, tv_nsec := 8 }) =
      (0, some { tv_sec := 1, tv_nsec := 500000000 }) :=
  ⟨C3_timespecSubtract_cases.1 { tv_sec := 1, tv_nsec := 0 } { tv_sec := 2, tv_nsec := 0 }
      { tv_sec := 7, tv_nsec := 8 } (by decide),
   C3_timespecSubtract_cases.2.2.2 { tv_sec := 7, tv_nsec := 8 }⟩

/-- Counterexample for C4 as stated: with the non-normalized operand
`y = {3, 2000000000}` (a legal `long` nanosecond value) the comparison still
reports `x > y`, yet the borrow in `UTILS_TimespecSubtract` leaves a negative
nanosecond field, so the function does return -1. -/
theorem C4_counterexample :
    UTILS_TimespecCompare (some { tv_sec := 5, tv_nsec := 0 })
        (some { tv_sec := 3, tv_nsec := 2000000000 }) = 1 ∧
    (UTILS_TimespecSubtract (some { tv_sec := 5, tv_nsec := 0 })
        (some { tv_sec := 3, tv_nsec := 2000000000 })
        (some { tv_sec := 0, tv_nsec := 0 })).1 = -1 := by
  constructor
  · decide
  · decide

/-- C4 amended: for normalized operands the compare precondition does make
the internal-inconsistency branch unreachable — whenever
`UTILS_TimespecCompare(x,y) = 1` and both timespecs are normalized,
`UTILS_TimespecSubtract` never returns -1. -/
theorem C4_subtract_no_internal_error :
    ∀ x y r0 : timespec,
      0 ≤ x.tv_nsec → x.tv_nsec < NANOSECONDS_PER_SECOND →
      0 ≤ y.tv_nsec → y.tv_nsec < NANOSECONDS_PER_SECOND →
      UTILS_TimespecCompare (some x) (some y) = 1 →
      (UTILS_TimespecSubtract (some x) (some y) (some r0)).1 ≠ -1 := by
  intro x y r0 hx0 hx1 hy0 hy1 hc
  simp only [NANOSECONDS_PER_SECOND] at hx1 hy1
  simp only [UTILS_TimespecSubtract, hc, NANOSECONDS_PER_SECOND]
  norm_num
  split_ifs <;> (try simp) <;> omega

/-- Witness for C4's amended theorem at a concrete normalized borrow case. -/
theorem C4_witness :
    (UTILS_TimespecSubtract (some { tv_sec := 5, tv_nsec := 0 })
        (some { tv_sec := 3, tv_nsec := 500000000 })
        (some { tv_sec := 0, tv_nsec := 0 })).1 ≠ -1 :=
  C4_subtract_no_internal_error { tv_sec := 5, tv_nsec := 0 }
    { tv_sec := 3, tv_nsec := 500000000 } { tv_sec := 0, tv_nsec := 0 }
    (by decide) (by decide) (by decide) (by decide) (by decide)

/-- C5: `UTILS_NanosecondsToTimespec` is total with no failure path — for
every signed 64-bit input it writes a normalized timespec that decomposes
the input exactly (`tv_sec * 1e9 + tv_nsec = n` with `0 <= tv_nsec < 1e9`);
consequently every normalized timespec whose total nanosecond value fits in
int64 round-trips, and input -1 produces `{-1, 999999999}`. -/
theorem C5_nanosecondsToTimespec_total_roundtrip :
    (∀ n : Int, -(2 ^ 63) ≤ n → n < 2 ^ 63 →
      0 ≤ (UTILS_NanosecondsToTimespec n).tv_nsec ∧
      (UTILS_NanosecondsToTimespec n).tv_nsec < 1000000000 ∧
      (UTILS_NanosecondsToTimespec n).tv_sec * 1000000000 +
        (UTILS_NanosecondsToTimespec n).tv_nsec = n) ∧
    (∀ t : timespec, 0 ≤ t.tv_nsec → t.tv_nsec < 1000000000 →
      -(2 ^ 63) ≤ t.tv_sec * 1000000000 + t.tv_nsec →
      t.tv_sec * 1000000000 + t.tv_nsec < 2 ^ 63 →
      UTILS_NanosecondsToTimespec (t.tv_sec * 1000000000 + t.tv_nsec) = t) ∧
    UTILS_NanosecondsToTimespec (-1) = { tv_sec := -1, tv_nsec := 999999999 } := by
  refine ⟨?_, ?_, by decide⟩
  · intro n _ _
    have h := nanosecondsToTimespec_char n
    simpa [NANOSECONDS_PER_SECOND] using h
  · intro t ht0 ht1 _ _
    have h := nanosecondsToTimespec_char (t.tv_sec * 1000000000 + t.tv_nsec)
    simp only [NANOSECONDS_PER_SECOND] at h
    obtain ⟨h1, h2, h3⟩ := h
    exact timespec_eq_of_fields (by omega) (by omega)

/-- Witness for C5: the decomposition applied at `n = -1` and the round-trip
applied at the concrete normalized timespec `{1, 5}`. -/
theorem C5_witness :
    (0 ≤ (UTILS_NanosecondsToTimespec (-1)).tv_nsec ∧
      (UTILS_NanosecondsToTimespec (-1)).tv_nsec < 1000000000 ∧
      (UTILS_NanosecondsToTimespec (-1)).tv_sec * 1000000000 +
        (UTILS_NanosecondsToTimespec (-1)).tv_nsec = -1) ∧
    UTILS_NanosecondsToTimespec ((1 : Int) * 1000000000 + 5) =
      { tv_sec := 1, tv_nsec := 5 } :=
  ⟨C5_nanosecondsToTimespec_total_roundtrip.1 (-1) (by decide) (by decide),
   C5_nanosecondsToTimespec_total_roundtrip.2.1 { tv_sec := 1, tv_nsec := 5 }
     (by decide) (by decide) (by decide) (by decide)⟩

/-- C6: `UTILS_TimespecAdd` returns -1 without writing when any pointer is
NULL; otherwise it writes the renormalized decomposition (through
`UTILS_NanosecondsToTimespec`) of the signed 64-bit total-nanosecond sum and
returns 1 exactly when that sum is negative, 0 otherwise — never the -1
invalid-argument code. -/
theorem C6_timespecAdd_char :
    (∀ x y r : Option timespec, x = none ∨ y = none ∨ r = none →
      UTILS_TimespecAdd x y r = (-1, r)) ∧
    (∀ a b r0 : timespec,
      UTILS_TimespecAdd (some a) (some b) (some r0) =
        ((if (a.tv_sec * NANOSECONDS_PER_SECOND + a.tv_nsec) +
              (b.tv_sec * NANOSECONDS_PER_SECOND + b.tv_nsec) < 0 then 1 else 0),
         some (UTILS_NanosecondsToTimespec
           ((a.tv_sec * NANOSECONDS_PER_SECOND + a.tv_nsec) +
            (b.tv_sec * NANOSECONDS_PER_SECOND + b.tv_nsec))))) ∧
    (∀ a b r0 : timespec, (UTILS_TimespecAdd (some a) (some b) (some r0)).1 ≠ -1) := by
  refine ⟨?_, fun a b r0 => rfl, ?_⟩
  · intro x y r h
    rcases x with _ | a
    · rfl
    rcases y with _ | b
    · rfl
    rcases r with _ | c
    · rfl
    · rcases h with h | h | h <;> simp_all
  · intro a b r0
    simp only [UTILS_TimespecAdd]
    split_ifs <;> simp

/-- Witness for C6: the NULL-pointer clause applied with a NULL output
pointer, and the no-minus-one clause at a concrete input. -/
theorem C6_witness :
    UTILS_TimespecAdd (some { tv_sec := 1, tv_nsec := 2 }) none none = (-1, none) ∧
    (UTILS_TimespecAdd (some { tv_sec := 1, tv_nsec := 2 })
      (some { tv_sec := 3, tv_nsec := 4 }) (some { tv_sec := 0, tv_nsec := 0 })).1 ≠ -1 :=
  ⟨C6_timespecAdd_char.1 (some { tv_sec := 1, tv_nsec := 2 }) none none
      (Or.inr (Or.inl rfl)),
   C6_timespecAdd_char.2.2 { tv_sec := 1, tv_nsec := 2 } { tv_sec := 3, tv_nsec := 4 }
      { tv_sec := 0, tv_nsec := 0 }⟩

/-- Frame helper: `UTILS_TimespecToTicks` leaves the output cell unchanged
whenever it returns a nonzero status. -/
theorem timespecToTicks_frame (HZ NPT TW : Nat) (p : Option timespec) (r : Option Nat)
    (h : (UTILS_TimespecToTicks HZ NPT TW p r).1 ≠ 0) :
    (UTILS_TimespecToTicks HZ NPT TW p r).2 = r := by
  rcases p with _ | ts
  · rfl
  rcases r with _ | r0
  · rfl
  by_cases hv : UTILS_ValidateTimespec (some ts) = false
  · simp [UTILS_TimespecToTicks, hv]
  · exfalso
    apply h
    simp [UTILS_TimespecToTicks, hv]

/-- C2: `UTILS_AbsoluteTimespecToDeltaTicks` returns `EINVAL` when any of its
three pointers is NULL or when the subtraction reports the malformed-input
error -1; it returns `ETIMEDOUT` (a code distinct from `EINVAL`) exactly
when the subtraction reports status 1 (target strictly before current time)
— in particular for target `{5,0}` against now `{10,0}`; otherwise it
returns the result of converting the difference to ticks. -/
theorem C2_absoluteToDeltaTicks_errors :
    (∀ (HZ NPT TW : Nat) (a c : Option timespec) (r : Option Nat),
      a = none ∨ c = none ∨ r = none →
      UTILS_AbsoluteTimespecToDeltaTicks HZ NPT TW a c r = (EINVAL, r)) ∧
    (∀ (HZ NPT TW : Nat) (a c : timespec) (r0 : Nat),
      (UTILS_TimespecSubtract (some a) (some c) (some { tv_sec := 0, tv_nsec := 0 })).1 = -1 →
      UTILS_AbsoluteTimespecToDeltaTicks HZ NPT TW (some a) (some c) (some r0) =
        (EINVAL, some r0)) ∧
    (∀ (HZ NPT TW : Nat) (a c : timespec) (r0 : Nat),
      (UTILS_TimespecSubtract (some a) (some c) (some { tv_sec := 0, tv_nsec := 0 })).1 = 1 →
      UTILS_AbsoluteTimespecToDeltaTicks HZ NPT TW (some a) (some c) (some r0) =
        (ETIMEDOUT, some r0)) ∧
    (∀ (HZ NPT TW : Nat) (r0 : Nat),
      (UTILS_AbsoluteTimespecToDeltaTicks HZ NPT TW (some { tv_sec := 5, tv_nsec := 0 })
        (some { tv_sec := 10, tv_nsec := 0 }) (some r0)).1 = ETIMEDOUT) ∧
    (∀ (HZ NPT TW : Nat) (a c : timespec) (r0 : Nat),
      (UTILS_TimespecSubtract (some a) (some c) (some { tv_sec := 0, tv_nsec := 0 })).1 = 0 →
      UTILS_AbsoluteTimespecToDeltaTicks HZ NPT TW (some a) (some c) (some r0) =
        UTILS_TimespecToTicks HZ NPT TW
          (UTILS_TimespecSubtract (some a) (some c) (some { tv_sec := 0, tv_nsec := 0 })).2
          (some r0)) ∧
    ETIMEDOUT ≠ EINVAL := by
  refine ⟨?_, ?_, ?_, ?_, ?_, by decide⟩
  · intro HZ NPT TW a c r h
    rcases a with _ | a
    · rfl
    rcases c with _ | c
    · rfl
    rcases r with _ | r0
    · rfl
    · rcases h with h | h | h <;> simp_all
  · intro HZ NPT TW a c r0 h
    simp only [UTILS_AbsoluteTimespecToDeltaTicks, h]
    norm_num
  · intro HZ NPT TW a c r0 h
    simp only [UTILS_AbsoluteTimespecToDeltaTicks, h]
    norm_num
  · intro HZ NPT TW r0
    simp only [UTILS_AbsoluteTimespecToDeltaTicks]
    rw [if_pos (by decide)]
  · intro HZ NPT TW a c r0 h
    simp only [UTILS_AbsoluteTimespecToDeltaTicks, h]
    norm_num

/-- Witness for C2: the timed-out branch evaluated at target `{5,0}`, now
`{10,0}` in a concrete configuration. -/
theorem C2_witness :
    UTILS_AbsoluteTimespecToDeltaTicks 1000 1000000 32 (some { tv_sec := 5, tv_nsec := 0 })
      (some { tv_sec := 10, tv_nsec := 0 }) (some 7) = (ETIMEDOUT, some 7) :=
  C2_absoluteToDeltaTicks_errors.2.2.1 1000 1000000 32 { tv_sec := 5, tv_nsec := 0 }
    { tv_sec := 10, tv_nsec := 0 } 7 (by decide)

/-- C10: failure atomicity of the tick-conversion interface — whenever
`UTILS_TimespecToTicks` or `UTILS_AbsoluteTimespecToDeltaTicks` returns a
nonzero status, the caller's output tick cell is returned exactly as it was
passed in; it is written only on status 0. -/
theorem C10_no_write_on_error :
    (∀ (HZ NPT TW : Nat) (p : Option timespec) (r : Option Nat),
      (UTILS_TimespecToTicks HZ NPT TW p r).1 ≠ 0 →
      (UTILS_TimespecToTicks HZ NPT TW p r).2 = r) ∧
    (∀ (HZ NPT TW : Nat) (a c : Option timespec) (r : Option Nat),
      (UTILS_AbsoluteTimespecToDeltaTicks HZ NPT TW a c r).1 ≠ 0 →
      (UTILS_AbsoluteTimespecToDeltaTicks HZ NPT TW a c r).2 = r) := by
  refine ⟨timespecToTicks_frame, ?_⟩
  intro HZ NPT TW a c r h
  rcases a with _ | a
  · rfl
  rcases c with _ | c
  · rfl
  rcases r with _ | r0
  · rfl
  by_cases h1 : (UTILS_TimespecSubtract (some a) (some c)
      (some { tv_sec := 0, tv_nsec := 0 })).1 = 1
  · simp [UTILS_AbsoluteTimespecToDeltaTicks, h1]
  by_cases h2 : (UTILS_TimespecSubtract (some a) (some c)
      (some { tv_sec := 0, tv_nsec := 0 })).1 = -1
  · simp [UTILS_AbsoluteTimespecToDeltaTicks, h1, h2]
  · simp only [UTILS_AbsoluteTimespecToDeltaTicks, if_neg h1, if_neg h2]
    apply timespecToTicks_frame
    simp only [UTILS_AbsoluteTimespecToDeltaTicks, if_neg h1, if_neg h2] at h
    exact h

/-- Witness for C10: a NULL timespec pointer makes the conversion fail with
`EINVAL` while the concrete output cell `some 5` passes through untouched,
for both functions. -/
theorem C10_witness :
    (UTILS_TimespecToTicks 1000 1000000 32 none (some 5)).2 = some 5 ∧
    (UTILS_AbsoluteTimespecToDeltaTicks 1000 1000000 32 none
      (some { tv_sec := 0, tv_nsec := 0 }) (some 5)).2 = some 5 :=
  ⟨C10_no_write_on_error.1 1000 1000000 32 none (some 5) (by decide),
   C10_no_write_on_error.2 1000 1000000 32 none (some { tv_sec := 0, tv_nsec := 0 })
     (some 5) (by decide)⟩

/-- For normalized operands the lexicographic comparison reports -1 exactly
when the total nanosecond value of `x` is smaller. -/
theorem compare_eq_neg_one_iff (a b : timespec)
    (ha0 : 0 ≤ a.tv_nsec) (ha1 : a.tv_nsec < NANOSECONDS_PER_SECOND)
    (hb0 : 0 ≤ b.tv_nsec) (hb1 : b.tv_nsec < NANOSECONDS_PER_SECOND) :
    UTILS_TimespecCompare (some a) (some b) = -1 ↔
      totalNanoseconds a < totalNanoseconds b := by
  simp only [NANOSECONDS_PER_SECOND] at ha1 hb1
  simp only [UTILS_TimespecCompare, totalNanoseconds, NANOSECONDS_PER_SECOND]
  split_ifs <;> constructor <;> intro h2 <;> (try contradiction) <;> omega

/-- For normalized operands the lexicographic comparison reports 0 exactly
when the total nanosecond values agree. -/
theorem compare_eq_zero_iff (a b : timespec)
    (ha0 : 0 ≤ a.tv_nsec) (ha1 : a.tv_nsec < NANOSECONDS_PER_SECOND)
    (hb0 : 0 ≤ b.tv_nsec) (hb1 : b.tv_nsec < NANOSECONDS_PER_SECOND) :
    UTILS_TimespecCompare (some a) (some b) = 0 ↔
      totalNanoseconds a = totalNanoseconds b := by
  simp only [NANOSECONDS_PER_SECOND] at ha1 hb1
  simp only [UTILS_TimespecCompare, totalNanoseconds, NANOSECONDS_PER_SECOND]
  split_ifs <;> constructor <;> intro h2 <;> (try contradiction) <;> omega

/-- For normalized operands with `total b <= total a`, `UTILS_TimespecSubtract`
succeeds with status 0 and writes a normalized difference whose total
nanosecond value is exactly `total a - total b`. -/
theorem subtract_normalized_char (a b r0 : timespec)
    (ha0 : 0 ≤ a.tv_nsec) (ha1 : a.tv_nsec < NANOSECONDS_PER_SECOND)
    (hb0 : 0 ≤ b.tv_nsec) (hb1 : b.tv_nsec < NANOSECONDS_PER_SECOND)
    (hge : totalNanoseconds b ≤ totalNanoseconds a) :
    ∃ r : timespec,
      UTILS_TimespecSubtract (some a) (some b) (some r0) = (0, some r) ∧
      0 ≤ r.tv_nsec ∧ r.tv_nsec < NANOSECONDS_PER_SECOND ∧
      totalNanoseconds r = totalNanoseconds a - totalNanoseconds b := by
  have hN : NANOSECONDS_PER_SECOND = 1000000000 := rfl
  have hc1 : UTILS_TimespecCompare (some a) (some b) ≠ -1 := by
    rw [ne_eq, compare_eq_neg_one_iff a b ha0 ha1 hb0 hb1]
    omega
  by_cases hc0 : UTILS_TimespecCompare (some a) (some b) = 0
  · have heq := (compare_eq_zero_iff a b ha0 ha1 hb0 hb1).mp hc0
    have h0 : totalNanoseconds { tv_sec := 0, tv_nsec := 0 } = 0 := by decide
    refine ⟨{ tv_sec := 0, tv_nsec := 0 }, ?_, by decide, by decide, ?_⟩
    · simp only [UTILS_TimespecSubtract]
      rw [if_neg hc1, if_pos hc0]
    · rw [h0]
      omega
  · by_cases hn : a.tv_nsec - b.tv_nsec < 0
    · refine ⟨⟨a.tv_sec - b.tv_sec - 1, a.tv_nsec - b.tv_nsec + NANOSECONDS_PER_SECOND⟩,
        ?_, ?_, ?_, ?_⟩
      · simp only [UTILS_TimespecSubtract]
        rw [if_neg hc1, if_neg hc0, if_pos hn, if_neg (by omega)]
      · dsimp only
        omega
      · dsimp only
        omega
      · simp only [totalNanoseconds, NANOSECONDS_PER_SECOND]
        ring
    · refine ⟨⟨a.tv_sec - b.tv_sec, a.tv_nsec - b.tv_nsec⟩, ?_, ?_, ?_, ?_⟩
      · simp only [UTILS_TimespecSubtract]
        rw [if_neg hc1, if_neg hc0, if_neg hn]
      · dsimp only
        omega
      · dsimp only
        omega
      · simp only [totalNanoseconds, NANOSECONDS_PER_SECOND]
        ring

/-- Counterexample for C8 as stated: with the normalized inputs `x = {-1,0}`
(a negative duration) and `y = {5,0}` — totals -1e9 and 5e9, well inside
int64 — adding and then subtracting `y` does not return status 0: the
subtraction reports 1 ("result would be negative") and never writes. -/
theorem C8_counterexample :
    (UTILS_TimespecSubtract
      (UTILS_TimespecAdd (some { tv_sec := -1, tv_nsec := 0 })
        (some { tv_sec := 5, tv_nsec := 0 }) (some { tv_sec := 0, tv_nsec := 0 })).2
      (some { tv_sec := 5, tv_nsec := 0 }) (some { tv_sec := 0, tv_nsec := 0 })).1 = 1 := by
  decide

/-- C8 amended: for non-null `x`, `y` whose totals and their sum stay in the
signed 64-bit range, with `y` normalized and `x`'s total nanosecond value
nonnegative, adding `y` and then subtracting it back returns status 0 and a
normalized result whose total nanosecond value equals that of `x`. -/
theorem C8_add_sub_inverse (x y r1 r2 : timespec)
    (hy0 : 0 ≤ y.tv_nsec) (hy1 : y.tv_nsec < NANOSECONDS_PER_SECOND)
    (hx : 0 ≤ totalNanoseconds x)
    (hr1 : -(2 ^ 63) ≤ totalNanoseconds x) (hr2 : totalNanoseconds x < 2 ^ 63)
    (hr3 : -(2 ^ 63) ≤ totalNanoseconds y) (hr4 : totalNanoseconds y < 2 ^ 63)
    (hr5 : -(2 ^ 63) ≤ totalNanoseconds x + totalNanoseconds y)
    (hr6 : totalNanoseconds x + totalNanoseconds y < 2 ^ 63) :
    ∃ r : timespec,
      UTILS_TimespecSubtract
        (UTILS_TimespecAdd (some x) (some y) (some r1)).2 (some y) (some r2) =
        (0, some r) ∧
      0 ≤ r.tv_nsec ∧ r.tv_nsec < NANOSECONDS_PER_SECOND ∧
      totalNanoseconds r = totalNanoseconds x := by
  have hadd : (UTILS_TimespecAdd (some x) (some y) (some r1)).2 =
      some (UTILS_NanosecondsToTimespec (totalNanoseconds x + totalNanoseconds y)) := by
    simp only [UTILS_TimespecAdd, totalNanoseconds]
  rw [hadd]
  have hs := nanosecondsToTimespec_char (totalNanoseconds x + totalNanoseconds y)
  obtain ⟨hs0, hs1, hs2⟩ := hs
  have hstot : totalNanoseconds
      (UTILS_NanosecondsToTimespec (totalNanoseconds x + totalNanoseconds y)) =
      totalNanoseconds x + totalNanoseconds y := hs2
  obtain ⟨r, hr, h1, h2, h3⟩ := subtract_normalized_char
    (UTILS_NanosecondsToTimespec (totalNanoseconds x + totalNanoseconds y)) y r2
    hs0 hs1 hy0 hy1 (by rw [hstot]; omega)
  exact ⟨r, hr, h1, h2, by rw [h3, hstot]; omega⟩

/-- Witness for C8's amended theorem at `x = {1,2}`, `y = {3,4}`. -/
theorem C8_witness :
    ∃ r : timespec,
      UTILS_TimespecSubtract
        (UTILS_TimespecAdd (some { tv_sec := 1, tv_nsec := 2 })
          (some { tv_sec := 3, tv_nsec := 4 }) (some { tv_sec := 0, tv_nsec := 0 })).2
        (some { tv_sec := 3, tv_nsec := 4 }) (some { tv_sec := 0, tv_nsec := 0 }) =
        (0, some r) ∧
      0 ≤ r.tv_nsec ∧ r.tv_nsec < NANOSECONDS_PER_SECOND ∧
      totalNanoseconds r = totalNanoseconds { tv_sec := 1, tv_nsec := 2 } :=
  C8_add_sub_inverse { tv_sec := 1, tv_nsec := 2 } { tv_sec := 3, tv_nsec := 4 }
    { tv_sec := 0, tv_nsec := 0 } { tv_sec := 0, tv_nsec := 0 }
    (by decide) (by decide) (by decide) (by decide) (by decide) (by decide) (by decide)
    (by decide) (by decide)
